import Mathlib

/-
Verification of the MindSpace teletherapy platform: a shallow embedding of
the database schema (tables, check constraints, row level security
policies, triggers) from the schema file, and of the client-side utility
functions from src/app.js, together with theorems settling the claims
about the booking state machine and its access-control model.

Conventions: uuids are modelled as `Nat`; dates as day numbers (`Nat`);
timestamps as `Nat`; SQL text columns as `String`; nullable columns as
`Option`; `auth.uid()` as `Option Nat` (`none` for an unauthenticated
request, and SQL `null = x` is never true, matching `none == some x =
false`).
-/

namespace MindSpace

/-- Roles of the profiles.role column: check (role in ('user', 'therapist', 'admin')). -/
inductive Role where
  | user
  | therapist
  | admin
deriving DecidableEq, Repr

/-- Values of Therapists.approval_status: check (approval_status in ('pending', 'approved', 'rejected')). -/
inductive ApprovalStatus where
  | pending
  | approved
  | rejected
deriving DecidableEq, Repr

/-- Values of Bookings.status: check (status in ('pending', 'confirmed', 'completed', 'cancelled', 'rejected')). -/
inductive BookingStatus where
  | pending
  | confirmed
  | completed
  | cancelled
  | rejected
deriving DecidableEq, Repr

/-- A row of public.profiles (columns relevant to the claims). -/
structure Profile where
  user_id : Nat
  email : String
  role : Role
  full_name : Option String := none
  created_at : Nat := 0
  updated_at : Nat := 0
deriving DecidableEq, Repr

/-- A row of public."Therapists" (columns relevant to the claims;
`active` embeds the quoted "Active" column). -/
structure Therapist where
  id : Nat
  user_id : Nat
  name : String
  email : String
  specialization : String
  fee : Int
  active : Bool := true
  approval_status : ApprovalStatus := ApprovalStatus.pending
deriving DecidableEq, Repr

/-- A row of public."Bookings", with every column of the schema. -/
structure Booking where
  id : Nat
  user_id : Nat
  therapist_id : Nat
  session_date : Nat
  start_time : String
  end_time : Option String := none
  amount : Int
  status : BookingStatus := BookingStatus.pending
  patient_name : Option String := none
  patient_email : Option String := none
  problem_description : Option String := none
  meeting_link : Option String := none
  session_notes : Option String := none
  next_session_notes : Option String := none
  reschedule_requested : Bool := false
  reschedule_new_date : Option Nat := none
  reschedule_new_start_time : Option String := none
  reschedule_reason : Option String := none
  therapist_reschedule_requested : Bool := false
  therapist_reschedule_date : Option Nat := none
  therapist_reschedule_time : Option String := none
  therapist_reschedule_reason : Option String := none
  created_at : Nat := 0
  updated_at : Nat := 0
deriving DecidableEq, Repr

/-- The check constraints of the "Therapists" table beyond the enumerations
already captured by the inductive types: fee >= 0 (and experience >= 0,
a column not needed by any claim). -/
def Therapist.rowCheck (t : Therapist) : Bool :=
  decide (0 ≤ t.fee)

/-- The check constraints of the "Bookings" table beyond the enumerations
already captured by the inductive types: amount >= 0. -/
def Booking.rowCheck (b : Booking) : Bool :=
  decide (0 ≤ b.amount)

/-- The identity of the requester, `auth.uid()`: `none` when unauthenticated. -/
abbrev Uid := Option Nat

/-- SQL `auth.uid() = x` for a non-null column value x: null on the left is never equal. -/
def uidIs (uid : Uid) (x : Nat) : Bool :=
  uid == some x

/-- The schema's admin test, used verbatim by every admin RLS policy and by
the helper function public.is_admin: exists (select 1 from public.profiles
where user_id = auth.uid() and role = 'admin'). -/
def is_admin (profiles : List Profile) (uid : Uid) : Bool :=
  profiles.any (fun p => uidIs uid p.user_id && p.role == Role.admin)

/-- The helper function public.get_user_role: select role from
public.profiles where user_id = user_uuid (rows keyed by the primary key). -/
def get_user_role (profiles : List Profile) (uid : Uid) : Option Role :=
  match uid with
  | none => none
  | some u => (profiles.find? (fun p => p.user_id == u)).map Profile.role

/-- Lookup of a profile row by primary key, as src/app.js getUserProfile
selects from 'profiles' with .eq('user_id', userId).single(). -/
def getUserProfile (profiles : List Profile) (uid : Nat) : Option Profile :=
  profiles.find? (fun p => p.user_id == uid)

/-- Policy "Public can view approved active therapists":
using (approval_status = 'approved' and "Active" = true). -/
def publicCanViewTherapists (t : Therapist) : Bool :=
  t.approval_status == ApprovalStatus.approved && t.active

/-- Policy "Therapist can view own therapist record":
using (auth.uid() = id or auth.uid() = user_id). -/
def therapistCanViewOwnRecord (uid : Uid) (t : Therapist) : Bool :=
  uidIs uid t.id || uidIs uid t.user_id

/-- A "Therapists" row is visible to a requester iff some permissive
select policy accepts it: the public policy, the own-record policy, or
the admin policy (permissive policies are OR-combined). -/
def therapistSelectAllowed (profiles : List Profile) (uid : Uid) (t : Therapist) : Bool :=
  publicCanViewTherapists t || therapistCanViewOwnRecord uid t || is_admin profiles uid

/-- Policy "Users can view own bookings": using (auth.uid() = user_id). -/
def usersCanViewOwnBookings (uid : Uid) (b : Booking) : Bool :=
  uidIs uid b.user_id

/-- Policy "Therapist can view assigned bookings": using (auth.uid() = therapist_id). -/
def therapistCanViewAssignedBookings (uid : Uid) (b : Booking) : Bool :=
  uidIs uid b.therapist_id

/-- A "Bookings" row is visible to a requester iff some permissive select
policy accepts it: own-bookings, assigned-bookings, or the admin policy. -/
def bookingSelectAllowed (profiles : List Profile) (uid : Uid) (b : Booking) : Bool :=
  usersCanViewOwnBookings uid b || therapistCanViewAssignedBookings uid b || is_admin profiles uid

/-- The disjunction of the USING clauses of the three update policies on
"Bookings": "Users can update own bookings" (auth.uid() = user_id),
"Therapist can update assigned bookings" (auth.uid() = therapist_id),
"Admin can update all bookings" (the admin test). None of the policies
declares a WITH CHECK clause, so each one's USING clause doubles as its
WITH CHECK on the updated row. -/
def bookingUpdateUsing (profiles : List Profile) (uid : Uid) (b : Booking) : Bool :=
  uidIs uid b.user_id || uidIs uid b.therapist_id || is_admin profiles uid

/-- An UPDATE of a "Bookings" row from `old` to `new` is accepted iff the
old row passes some update policy's USING clause, the new row passes some
policy's WITH CHECK clause (= its USING clause here), and the new row
satisfies the table's check constraints. -/
def bookingUpdateAllowed (profiles : List Profile) (uid : Uid) (old new : Booking) : Bool :=
  bookingUpdateUsing profiles uid old && bookingUpdateUsing profiles uid new && new.rowCheck

/-- The disjunction of the USING clauses of the update policies on
profiles: "Users can update own profile" (auth.uid() = user_id) and
"Admin can update all profiles" (the admin test); neither declares a
WITH CHECK clause or restricts columns. -/
def profileUpdateUsing (profiles : List Profile) (uid : Uid) (p : Profile) : Bool :=
  uidIs uid p.user_id || is_admin profiles uid

/-- An UPDATE of a profiles row from `old` to `new` is accepted iff the
old row passes some update policy's USING clause and the new row passes
some policy's WITH CHECK clause (the role enumeration constraint is
captured by the `Role` type). -/
def profileUpdateAllowed (profiles : List Profile) (uid : Uid) (old new : Profile) : Bool :=
  profileUpdateUsing profiles uid old && profileUpdateUsing profiles uid new

/-- Trigger function public.update_updated_at_column, attached BEFORE
UPDATE on "Bookings" (and profiles): new.updated_at = now(); return new. -/
def update_updated_at_column (now : Nat) (new : Booking) : Booking :=
  { new with updated_at := now }

/-- The stored outcome of an UPDATE request on a "Bookings" row: the
client-proposed new row `newRow` first goes through the BEFORE UPDATE
trigger, then row level security and the check constraints accept or
reject it; `none` means the update is denied and the stored row is
unchanged. -/
def performBookingUpdate (profiles : List Profile) (uid : Uid) (now : Nat)
    (old newRow : Booking) : Option Booking :=
  if bookingUpdateAllowed profiles uid old (update_updated_at_column now newRow)
  then some (update_updated_at_column now newRow)
  else none

/-- Trigger function public.handle_new_user, fired AFTER INSERT on
auth.users: inserts a profiles row with role coalesce(raw_user_meta_data
role, 'user') and full_name coalesce(raw_user_meta_data full_name,
split_part(email, '@', 1)). -/
def handle_new_user (id : Nat) (email : String) (metaRole : Option Role)
    (metaFullName : Option String) : Profile :=
  { user_id := id
    email := email
    role := metaRole.getD Role.user
    full_name := some (metaFullName.getD (email.takeWhile (fun c => c ≠ '@'))) }

/-- src/app.js isFutureDate, over day numbers: a missing date string is
rejected (`if (!dateString) return false`), and otherwise the input date
must be on or after today truncated to midnight (`inputDate >= today`). -/
def isFutureDate (dateString : Option Nat) (today : Nat) : Bool :=
  match dateString with
  | none => false
  | some d => decide (today ≤ d)

/-- The result of the URL constructor used by src/app.js isValidHttpsUrl:
the scheme (lowercased, without the trailing colon of `protocol`) and the
remainder of the input. -/
structure ParsedURL where
  scheme : String
  rest : String
deriving DecidableEq, Repr

/-- ASCII alpha, the characters allowed to start a URL scheme. -/
def isSchemeStartChar (c : Char) : Bool :=
  (decide ('a' ≤ c) && decide (c ≤ 'z')) || (decide ('A' ≤ c) && decide (c ≤ 'Z'))

/-- The characters allowed inside a URL scheme. -/
def isSchemeChar (c : Char) : Bool :=
  isSchemeStartChar c || (decide ('0' ≤ c) && decide (c ≤ '9'))
    || c == '+' || c == '-' || c == '.'

/-- Splits a character list at the colon terminating a URL scheme,
requiring every character before the colon to be a scheme character. -/
def takeScheme : List Char → Option (List Char × List Char)
  | [] => none
  | c :: cs =>
    if c == ':' then some ([], cs)
    else if isSchemeChar c then
      match takeScheme cs with
      | some (sch, rest) => some (c :: sch, rest)
      | none => none
    else none

/-- The special schemes of the URL standard, which require a nonempty host. -/
def specialSchemes : List String :=
  ["ftp", "file", "http", "https", "ws", "wss"]

/-- Model of `new URL(url)` as used by src/app.js isValidHttpsUrl (only
the fragment that decides whether construction throws and what `protocol`
is): the input must open with a valid scheme followed by a colon, and a
special scheme must be followed, after any run of slashes or backslashes,
by a nonempty host part. -/
def parseURL (s : String) : Option ParsedURL :=
  match takeScheme s.toList with
  | none => none
  | some (sch, rest) =>
    match sch with
    | [] => none
    | c :: _ =>
      if isSchemeStartChar c then
        let scheme := String.mk (sch.map Char.toLower)
        if scheme ∈ specialSchemes then
          let afterSlashes := rest.dropWhile (fun ch => ch == '/' || ch == '\\')
          match afterSlashes with
          | [] => none
          | h :: _ =>
            if h == '/' || h == '?' || h == '#' then none
            else some { scheme := scheme, rest := String.mk rest }
        else some { scheme := scheme, rest := String.mk rest }
      else none

/-- src/app.js isValidHttpsUrl: `if (!url) return false`, then construct
`new URL(url)` and compare `parsed.protocol === 'https:'`; a constructor
throw yields false. -/
def isValidHttpsUrl (url : String) : Bool :=
  if url == "" then false
  else
    match parseURL url with
    | some u => u.scheme == "https"
    | none => false

/-- The outcome of src/app.js guardDashboard: redirect to login.html,
redirect to the dashboard of the caller's actual role, or grant access
returning the user and profile pair. -/
inductive GuardOutcome where
  | toLogin
  | toRoleDashboard (r : Role)
  | granted (uid : Nat) (p : Profile)
deriving DecidableEq, Repr

/-- src/app.js guardDashboard: no authenticated user or no profile row
redirects to login; a role other than the expected one redirects to that
role's dashboard; otherwise access is granted. For a therapist the source
additionally fetches Therapists.approval_status, but only to log a
pending-approval message: the result is granted either way. -/
def guardDashboard (profiles : List Profile) (therapists : List Therapist)
    (currentUser : Option Nat) (expectedRole : Role) : GuardOutcome :=
  match currentUser with
  | none => GuardOutcome.toLogin
  | some uid =>
    match getUserProfile profiles uid with
    | none => GuardOutcome.toLogin
    | some p =>
      if p.role ≠ expectedRole then GuardOutcome.toRoleDashboard p.role
      else
        let _approval := (therapists.find? (fun t => t.id == uid)).map Therapist.approval_status
        GuardOutcome.granted uid p

/-- The error taxonomy of the spec (section 7). -/
inductive AppError where
  | Unauthenticated
  | Forbidden
  | InvalidTransition
  | ValidationError
  | NotFound
  | ConflictError
deriving DecidableEq, Repr

/-- Modelled from the spec: the booking-creation flow (the book-session
page that wires it up is not among the provided source files). The
session date is validated with isFutureDate (src/app.js) and a past date
fails with ValidationError; the therapist must resolve to a record that
is publicly visible (approved and active) at creation time; on success a
"Bookings" row is inserted with the schema defaults status = 'pending'
and amount copied from the therapist's current fee. -/
def createBooking (today : Nat) (therapists : List Therapist) (uid : Nat)
    (tid : Nat) (session_date : Option Nat) (start_time : String) :
    Except AppError Booking :=
  if ¬ isFutureDate session_date today then Except.error AppError.ValidationError
  else
    match therapists.find? (fun t => t.id == tid && publicCanViewTherapists t) with
    | none => Except.error AppError.NotFound
    | some t =>
      match session_date with
      | none => Except.error AppError.ValidationError
      | some d =>
        Except.ok
          { id := 0
            user_id := uid
            therapist_id := t.id
            session_date := d
            start_time := start_time
            amount := t.fee
            status := BookingStatus.pending
            created_at := today
            updated_at := today }

/-- Transcribed from the spec's words (section 4.2): the non-admin rows of
the transition table between stored statuses. pending may move to
confirmed, rejected or cancelled; confirmed may move to completed or
cancelled; completed, cancelled and rejected are terminal. -/
def specStatusEdge (src dst : BookingStatus) : Bool :=
  match src, dst with
  | BookingStatus.pending, BookingStatus.confirmed => true
  | BookingStatus.pending, BookingStatus.rejected => true
  | BookingStatus.pending, BookingStatus.cancelled => true
  | BookingStatus.confirmed, BookingStatus.completed => true
  | BookingStatus.confirmed, BookingStatus.cancelled => true
  | _, _ => false

/-- Transcribed from the spec's words (section 4.1): isSelf(principal,
booking), the record's owning-principal reference equals the principal's
identity. -/
def isSelf (uid : Uid) (b : Booking) : Bool :=
  uid == some b.user_id

/-- Transcribed from the spec's words (section 4.1):
isAssignedTherapist(principal, booking), booking.therapistRef equals the
principal's identity. -/
def isAssignedTherapist (uid : Uid) (b : Booking) : Bool :=
  uid == some b.therapist_id

/-- Transcribed from the spec's words (section 4.1): isAdmin(principal),
the principal's role is admin, with the authoritative role re-fetched
from the store (get_user_role). -/
def isAdminSpec (profiles : List Profile) (uid : Uid) : Bool :=
  get_user_role profiles uid == some Role.admin

/-- Transcribed from the spec's words (section 4.1): canRead(principal,
booking) = isSelf or isAssignedTherapist or isAdmin. -/
def canRead (profiles : List Profile) (uid : Uid) (b : Booking) : Bool :=
  isSelf uid b || isAssignedTherapist uid b || isAdminSpec profiles uid

/-- SQL null is never equal to a value: `auth.uid() = x` fails for an
unauthenticated request. -/
theorem none_beq_some (x : Nat) : ((none : Option Nat) == some x) = false := rfl

/-- An unauthenticated request never passes the admin policy test. -/
theorem is_admin_none_eq_false (profiles : List Profile) :
    is_admin profiles none = false := by
  simp [is_admin, uidIs]

/-- The primary-key constraint of the profiles table: user_id values are
pairwise distinct. -/
def profilesPK (profiles : List Profile) : Prop :=
  (profiles.map Profile.user_id).Nodup

/-- Under the primary-key constraint, the schema's existential admin test
agrees with the spec's role-lookup admin predicate. -/
theorem is_admin_eq_isAdminSpec (profiles : List Profile) (uid : Uid)
    (hpk : profilesPK profiles) : is_admin profiles uid = isAdminSpec profiles uid := by
  cases uid with
  | none =>
    rw [is_admin_none_eq_false]
    rfl
  | some u =>
    rw [Bool.eq_iff_iff]
    constructor
    · intro h
      obtain ⟨p, hp, hpmatch⟩ := List.any_eq_true.mp h
      rw [Bool.and_eq_true] at hpmatch
      have hpu : p.user_id = u := by
        have := hpmatch.1
        simp [uidIs] at this
        exact this.symm
      have hpa : p.role = Role.admin := by
        have := hpmatch.2
        simpa using this
      have hex : ∃ q ∈ profiles, (fun q => q.user_id == u) q = true :=
        ⟨p, hp, by simp [hpu]⟩
      obtain ⟨q, hq⟩ := Option.isSome_iff_exists.mp (List.find?_isSome.mpr hex)
      have hqmem : q ∈ profiles := List.mem_of_find?_eq_some hq
      have hqu : q.user_id = u := by
        have := List.find?_some hq
        simpa using this
      have hqp : q = p := List.inj_on_of_nodup_map hpk hqmem hp (by rw [hpu, hqu])
      simp [isAdminSpec, get_user_role, hq, hqp, hpa]
    · intro h
      simp [isAdminSpec, get_user_role] at h
      obtain ⟨q, hq, hqa⟩ := h
      have hqmem : q ∈ profiles := List.mem_of_find?_eq_some hq
      have hqu : q.user_id = u := by
        have := List.find?_some hq
        simpa using this
      exact List.any_eq_true.mpr ⟨q, hqmem, by simp [uidIs, hqu, hqa]⟩

/-- An UPDATE request on a "Bookings" row succeeds exactly when the
RLS policies and check constraints accept the trigger-adjusted new row. -/
theorem performBookingUpdate_isSome (profiles : List Profile) (uid : Uid)
    (now : Nat) (old newRow : Booking) :
    (performBookingUpdate profiles uid now old newRow).isSome
      = bookingUpdateAllowed profiles uid old (update_updated_at_column now newRow) := by
  unfold performBookingUpdate
  split <;> simp_all

/-- Example rows used to instantiate the theorems: a patient profile, a
therapist profile, an approved active therapist record, and a booking of
the patient with that therapist. -/
def patProfile : Profile :=
  { user_id := 1, email := "pat@example.com", role := Role.user }

/-- Example therapist profile row. -/
def therProfile : Profile :=
  { user_id := 2, email := "ther@example.com", role := Role.therapist }

/-- Example profiles table contents. -/
def demoProfiles : List Profile :=
  [patProfile, therProfile]

/-- Example approved and active therapist record with fee 100. -/
def drT : Therapist :=
  { id := 2, user_id := 2, name := "Dr T", email := "ther@example.com",
    specialization := "CBT", fee := 100, active := true,
    approval_status := ApprovalStatus.approved }

/-- Example "Therapists" table contents. -/
def demoTherapists : List Therapist :=
  [drT]

/-- Example booking of patient 1 with therapist 2, in a given status. -/
def demoBooking (s : BookingStatus) : Booking :=
  { id := 10, user_id := 1, therapist_id := 2, session_date := 20,
    start_time := "10:00", amount := 100, status := s }

/-- C3: every therapist record visible to an unauthenticated (public)
directory query satisfies approval_status = 'approved' and "Active" =
true; no pending, rejected, or inactive record is included. -/
theorem public_select_only_approved_active (profiles : List Profile) (t : Therapist)
    (h : therapistSelectAllowed profiles none t = true) :
    t.approval_status = ApprovalStatus.approved ∧ t.active = true := by
  unfold therapistSelectAllowed publicCanViewTherapists therapistCanViewOwnRecord uidIs at h
  rw [is_admin_none_eq_false] at h
  simp [none_beq_some] at h
  exact h

/-- Witness for C3 at a concrete approved active therapist record. -/
theorem public_select_only_approved_active_witness :
    therapistSelectAllowed [] none drT = true
    ∧ (drT.approval_status = ApprovalStatus.approved ∧ drT.active = true) :=
  ⟨by decide, public_select_only_approved_active [] drT (by decide)⟩

/-- C5: the meeting-link validator accepts a string iff it parses as a
URL whose scheme is https; in particular "http://example.com" fails and
"https://example.com/room/abc" succeeds. -/
theorem isValidHttpsUrl_iff_https_scheme :
    (∀ url : String, isValidHttpsUrl url = true ↔
        ∃ u, parseURL url = some u ∧ u.scheme = "https")
    ∧ isValidHttpsUrl "http://example.com" = false
    ∧ isValidHttpsUrl "https://example.com/room/abc" = true := by
  refine ⟨fun url => ?_, by decide, by decide⟩
  unfold isValidHttpsUrl
  by_cases h : url = ""
  · subst h
    have hnone : parseURL "" = none := rfl
    simp [hnone]
  · have hne : (url == "") = false := by
      simpa using h
    rw [hne]
    simp only [Bool.false_eq_true, if_false]
    cases hp : parseURL url with
    | none => simp
    | some u => simp [beq_iff_eq]

/-- C7: under the profiles primary-key constraint, a principal may read a
booking exactly when the spec's canRead predicate holds: the principal is
the owning patient, the assigned therapist, or an admin. -/
theorem bookingSelect_eq_canRead (profiles : List Profile) (uid : Uid) (b : Booking)
    (hpk : profilesPK profiles) :
    bookingSelectAllowed profiles uid b = canRead profiles uid b := by
  unfold bookingSelectAllowed usersCanViewOwnBookings therapistCanViewAssignedBookings
    canRead isSelf isAssignedTherapist uidIs
  rw [is_admin_eq_isAdminSpec profiles uid hpk]

/-- Witness for C7 at the example profiles table and booking. -/
theorem bookingSelect_eq_canRead_witness :
    bookingSelectAllowed demoProfiles (some 3) (demoBooking BookingStatus.pending)
      = canRead demoProfiles (some 3) (demoBooking BookingStatus.pending) :=
  bookingSelect_eq_canRead demoProfiles (some 3) (demoBooking BookingStatus.pending)
    (by unfold profilesPK; decide)

/-- C10: guardDashboard grants a therapist access to the therapist
dashboard whenever the profile role matches, with no condition on the
approval_status of the Therapists record. -/
theorem guardDashboard_grants_therapist (profiles : List Profile)
    (therapists : List Therapist) (uid : Nat) (p : Profile)
    (hp : getUserProfile profiles uid = some p) (hrole : p.role = Role.therapist) :
    guardDashboard profiles therapists (some uid) Role.therapist
      = GuardOutcome.granted uid p := by
  unfold guardDashboard
  dsimp only
  rw [hp]
  simp [hrole]

/-- Witness for C10: a therapist whose record is still pending approval is
granted dashboard access. -/
theorem guardDashboard_grants_therapist_witness :
    ({ drT with approval_status := ApprovalStatus.pending } : Therapist).approval_status
        = ApprovalStatus.pending
    ∧ guardDashboard demoProfiles [{ drT with approval_status := ApprovalStatus.pending }]
        (some 2) Role.therapist = GuardOutcome.granted 2 therProfile :=
  ⟨rfl, guardDashboard_grants_therapist demoProfiles
    [{ drT with approval_status := ApprovalStatus.pending }] 2 therProfile (by decide) rfl⟩

/-- C1 counterexample: a non-admin principal (the owning patient) changes
a completed booking to cancelled, which is not an edge of the transition
table, and the update is accepted with the new status stored. -/
theorem completed_booking_cancel_accepted :
    is_admin demoProfiles (some 1) = false
    ∧ specStatusEdge BookingStatus.completed BookingStatus.cancelled = false
    ∧ performBookingUpdate demoProfiles (some 1) 30 (demoBooking BookingStatus.completed)
        { demoBooking BookingStatus.completed with status := BookingStatus.cancelled }
      = some { demoBooking BookingStatus.completed with
                status := BookingStatus.cancelled, updated_at := 30 } := by
  decide

/-- C1 amended: the schema restricts status only to the five enumerated
values; any actor whose update passes the row policies (here the owning
patient) may set any status from any current status, with no
transition-table check. -/
theorem booking_status_update_unrestricted (profiles : List Profile) (b : Booking)
    (s' : BookingStatus) (now : Nat) (h : 0 ≤ b.amount) :
    performBookingUpdate profiles (some b.user_id) now b { b with status := s' }
      = some { b with status := s', updated_at := now } := by
  unfold performBookingUpdate update_updated_at_column bookingUpdateAllowed
    bookingUpdateUsing Booking.rowCheck uidIs
  simp [h]

/-- Witness for the C1 amended theorem: a cancelled booking is moved back
to pending, a direction the spec's table forbids outright. -/
theorem booking_status_update_unrestricted_witness :
    performBookingUpdate demoProfiles (some 1) 30 (demoBooking BookingStatus.cancelled)
      { demoBooking BookingStatus.cancelled with status := BookingStatus.pending }
      = some { demoBooking BookingStatus.cancelled with
                status := BookingStatus.pending, updated_at := 30 } :=
  booking_status_update_unrestricted demoProfiles (demoBooking BookingStatus.cancelled)
    BookingStatus.pending 30 (by decide)

/-- C2 counterexample: the owning patient (role 'user', not the assigned
therapist) moves their own pending booking to confirmed and the update is
accepted rather than rejected as Forbidden. -/
theorem patient_confirms_own_pending_booking :
    patProfile.role = Role.user
    ∧ (demoBooking BookingStatus.pending).user_id = patProfile.user_id
    ∧ (demoBooking BookingStatus.pending).therapist_id = 2
    ∧ performBookingUpdate demoProfiles (some 1) 25 (demoBooking BookingStatus.pending)
        { demoBooking BookingStatus.pending with status := BookingStatus.confirmed }
      = some { demoBooking BookingStatus.pending with
                status := BookingStatus.confirmed, updated_at := 25 } := by
  decide

/-- C2 amended: a status change on a booking (confirmed, rejected, or any
other value) is accepted exactly for the owning patient, the assigned
therapist, or an admin; every other principal is denied. -/
theorem booking_status_update_actor_set (profiles : List Profile) (uid : Uid)
    (b : Booking) (s' : BookingStatus) (now : Nat) (h : 0 ≤ b.amount) :
    (performBookingUpdate profiles uid now b { b with status := s' }).isSome = true
      ↔ (uid = some b.user_id ∨ uid = some b.therapist_id
          ∨ is_admin profiles uid = true) := by
  rw [performBookingUpdate_isSome]
  unfold bookingUpdateAllowed bookingUpdateUsing update_updated_at_column
    Booking.rowCheck uidIs
  simp [h, or_assoc]

/-- Witness for the C2 amended theorem: a principal who is neither the
owner, nor the assigned therapist, nor an admin cannot confirm the
booking, while the assigned therapist can. -/
theorem booking_status_update_actor_set_witness :
    ((performBookingUpdate demoProfiles (some 5) 25 (demoBooking BookingStatus.pending)
        { demoBooking BookingStatus.pending with status := BookingStatus.confirmed }).isSome
      = true
      ↔ (some 5 = some (demoBooking BookingStatus.pending).user_id
          ∨ some 5 = some (demoBooking BookingStatus.pending).therapist_id
          ∨ is_admin demoProfiles (some 5) = true))
    ∧ ((performBookingUpdate demoProfiles (some 2) 25 (demoBooking BookingStatus.pending)
        { demoBooking BookingStatus.pending with status := BookingStatus.confirmed }).isSome
      = true
      ↔ (some 2 = some (demoBooking BookingStatus.pending).user_id
          ∨ some 2 = some (demoBooking BookingStatus.pending).therapist_id
          ∨ is_admin demoProfiles (some 2) = true)) :=
  ⟨booking_status_update_actor_set demoProfiles (some 5)
      (demoBooking BookingStatus.pending) BookingStatus.confirmed 25 (by decide),
    booking_status_update_actor_set demoProfiles (some 2)
      (demoBooking BookingStatus.pending) BookingStatus.confirmed 25 (by decide)⟩

/-- C4: booking creation with a past session date fails with
ValidationError; with a current-or-future date and a therapist whose
record is publicly visible (approved and active), it succeeds with status
pending and amount equal to that therapist's current fee. -/
theorem createBooking_spec (today : Nat) (therapists : List Therapist) (uid tid : Nat)
    (d : Nat) (st : String) :
    (d < today →
      createBooking today therapists uid tid (some d) st
        = Except.error AppError.ValidationError)
    ∧ (∀ t, today ≤ d →
        therapists.find? (fun q => q.id == tid && publicCanViewTherapists q) = some t →
        ∃ b, createBooking today therapists uid tid (some d) st = Except.ok b
          ∧ b.status = BookingStatus.pending ∧ b.amount = t.fee) := by
  constructor
  · intro hlt
    unfold createBooking isFutureDate
    have hnle : ¬ today ≤ d := Nat.not_le.mpr hlt
    simp [hnle]
  · intro t hle hfind
    unfold createBooking isFutureDate
    simp [hle, hfind]

/-- Witness for C4: a past date is rejected, and a valid future-date
booking with the approved active therapist drT carries status pending and
amount drT.fee. -/
theorem createBooking_spec_witness :
    createBooking 10 demoTherapists 1 2 (some 5) "10:00"
        = Except.error AppError.ValidationError
    ∧ ∃ b, createBooking 10 demoTherapists 1 2 (some 12) "10:00" = Except.ok b
        ∧ b.status = BookingStatus.pending ∧ b.amount = drT.fee :=
  ⟨(createBooking_spec 10 demoTherapists 1 2 5 "10:00").1 (by decide),
    (createBooking_spec 10 demoTherapists 1 2 12 "10:00").2 drT (by decide) (by decide)⟩

/-- Intermediate row for the C6 counterexample: the assigned therapist has
opened the therapist reschedule channel on the confirmed booking. -/
def bothMid : Booking :=
  { demoBooking BookingStatus.confirmed with
      therapist_reschedule_requested := true
      therapist_reschedule_date := some 22
      therapist_reschedule_time := some "11:00"
      therapist_reschedule_reason := some "conflict"
      updated_at := 31 }

/-- Final row for the C6 counterexample: the patient has opened the
patient reschedule channel while the therapist channel is still open. -/
def bothEnd : Booking :=
  { bothMid with
      reschedule_requested := true
      reschedule_new_date := some 23
      reschedule_new_start_time := some "12:00"
      reschedule_reason := some "travel"
      updated_at := 32 }

/-- C6 counterexample: two accepted updates, one by the assigned
therapist and one by the owning patient, reach a stored booking row with
reschedule_requested = true and therapist_reschedule_requested = true
simultaneously. -/
theorem reschedule_flags_both_open_reachable :
    performBookingUpdate demoProfiles (some 2) 31
        (demoBooking BookingStatus.confirmed) bothMid = some bothMid
    ∧ performBookingUpdate demoProfiles (some 1) 32 bothMid bothEnd = some bothEnd
    ∧ bothEnd.reschedule_requested = true
    ∧ bothEnd.therapist_reschedule_requested = true := by
  decide

/-- C6 amended: the data model enforces no mutual exclusion between the
two reschedule channels: the owning patient may open the patient channel
on any booking, whatever the state of the therapist channel, and the
update is accepted. -/
theorem patient_reschedule_opens_regardless (profiles : List Profile) (b : Booking)
    (now d : Nat) (ts rsn : String) (h : 0 ≤ b.amount) :
    performBookingUpdate profiles (some b.user_id) now b
      { b with reschedule_requested := true, reschedule_new_date := some d,
               reschedule_new_start_time := some ts, reschedule_reason := some rsn }
      = some { b with
                reschedule_requested := true
                reschedule_new_date := some d
                reschedule_new_start_time := some ts
                reschedule_reason := some rsn
                updated_at := now } := by
  unfold performBookingUpdate update_updated_at_column bookingUpdateAllowed
    bookingUpdateUsing Booking.rowCheck uidIs
  simp [h]

/-- Witness for the C6 amended theorem: the patient channel opens on a row
whose therapist channel is already open. -/
theorem patient_reschedule_opens_regardless_witness :
    bothMid.therapist_reschedule_requested = true
    ∧ performBookingUpdate demoProfiles (some bothMid.user_id) 32 bothMid
        { bothMid with
           reschedule_requested := true
           reschedule_new_date := some 23
           reschedule_new_start_time := some "12:00"
           reschedule_reason := some "travel" }
        = some { bothMid with
                  reschedule_requested := true
                  reschedule_new_date := some 23
                  reschedule_new_start_time := some "12:00"
                  reschedule_reason := some "travel"
                  updated_at := 32 } :=
  ⟨rfl, patient_reschedule_opens_regardless demoProfiles bothMid 32 23 "12:00" "travel"
    (by decide)⟩

/-- C8 counterexample: a principal with role 'user' updates their own
profiles row to role 'admin' and the update policies accept it. -/
theorem user_self_role_escalation_allowed :
    patProfile.role = Role.user
    ∧ profileUpdateAllowed demoProfiles (some patProfile.user_id) patProfile
        { patProfile with role := Role.admin } = true := by
  decide

/-- C8 amended: the role defaults to 'user' when signup metadata supplies
none, and after creation the own-profile update policy restricts rows but
not columns, so the principal themself (not only an admin) can change
their own role. -/
theorem role_creation_default_and_self_update :
    (∀ (i : Nat) (email : String) (metaFullName : Option String),
        (handle_new_user i email none metaFullName).role = Role.user)
    ∧ (∀ (profiles : List Profile) (p : Profile) (r : Role),
        profileUpdateAllowed profiles (some p.user_id) p { p with role := r } = true) := by
  constructor
  · intro i email metaFullName
    rfl
  · intro profiles p r
    unfold profileUpdateAllowed profileUpdateUsing uidIs
    simp

/-- C9 counterexample: an accepted update by the owning patient that
assigns created_at stores the new created_at value: the trigger refreshes
updated_at but does not protect created_at. -/
theorem created_at_changed_by_update :
    (demoBooking BookingStatus.pending).created_at = 0
    ∧ performBookingUpdate demoProfiles (some 1) 30 (demoBooking BookingStatus.pending)
        { demoBooking BookingStatus.pending with created_at := 99 }
      = some { demoBooking BookingStatus.pending with created_at := 99, updated_at := 30 } := by
  decide

/-- C9 amended: on every accepted booking update the stored updated_at is
refreshed to the mutation time, and created_at is preserved exactly when
the update request does not itself assign created_at. -/
theorem updated_at_refreshed_on_update (profiles : List Profile) (uid : Uid)
    (now : Nat) (old newRow b' : Booking)
    (h : performBookingUpdate profiles uid now old newRow = some b') :
    b'.updated_at = now
    ∧ (newRow.created_at = old.created_at → b'.created_at = old.created_at) := by
  unfold performBookingUpdate update_updated_at_column at h
  split at h
  · injection h with h1
    subst h1
    exact ⟨rfl, fun hce => hce⟩
  · cases h

/-- Witness for the C9 amended theorem at a concrete accepted update. -/
theorem updated_at_refreshed_on_update_witness :
    ({ demoBooking BookingStatus.pending with updated_at := 30 } : Booking).updated_at = 30
    ∧ ({ demoBooking BookingStatus.pending with updated_at := 30 } : Booking).created_at
        = (demoBooking BookingStatus.pending).created_at :=
  ⟨(updated_at_refreshed_on_update demoProfiles (some 1) 30
      (demoBooking BookingStatus.pending) (demoBooking BookingStatus.pending)
      { demoBooking BookingStatus.pending with updated_at := 30 } (by decide)).1,
    (updated_at_refreshed_on_update demoProfiles (some 1) 30
      (demoBooking BookingStatus.pending) (demoBooking BookingStatus.pending)
      { demoBooking BookingStatus.pending with updated_at := 30 } (by decide)).2 rfl⟩

end MindSpace
